import Mathlib

/-!
Verification of `bottle_oauthlib/oauth2.py`: a shallow embedding of the
module's request extraction, response writing and the four decorator
wrappers, together with theorems settling the specification claims.

Python strings are Lean `String`s, bytes are `List Nat` (each < 256),
dicts are association lists that update in place (preserving insertion
order, as CPython dicts do), and exceptions are modelled with `Except`.
-/

set_option autoImplicit false

/-! ## String and byte utilities -/

/-- Lower-case a string character-wise (used to model the case-insensitive
header dictionaries of the bottle framework). -/
def lowerStr (s : String) : String := String.mk (s.data.map Char.toLower)

/-- `needle` is a prefix of `hay` (character lists). -/
def isPrefixChars : List Char → List Char → Bool
  | [], _ => true
  | _ :: _, [] => false
  | a :: as, b :: bs => a == b && isPrefixChars as bs

/-- `needle` occurs as a contiguous substring of `hay` (character lists).
Models Python's `needle in hay` on strings. -/
def containsChars (needle : List Char) : List Char → Bool
  | [] => isPrefixChars needle []
  | c :: rest => isPrefixChars needle (c :: rest) || containsChars needle rest

/-- Models Python's substring test `needle in hay`. -/
def strContainsSub (needle hay : String) : Bool :=
  containsChars needle.data hay.data

/-- UTF-8 encoding of a single character, as byte values. -/
def charUtf8 (c : Char) : List Nat :=
  let n := c.toNat
  if n < 128 then [n]
  else if n < 2048 then [192 + n / 64, 128 + n % 64]
  else if n < 65536 then [224 + n / 4096, 128 + (n / 64) % 64, 128 + n % 64]
  else [240 + n / 262144, 128 + (n / 4096) % 64, 128 + (n / 64) % 64, 128 + n % 64]

/-- UTF-8 encoding of a string, as byte values. -/
def utf8Bytes (s : String) : List Nat := (s.data.map charUtf8).flatten

/-- Upper-case hexadecimal digit for `n < 16`. -/
def hexDigit (n : Nat) : Char :=
  if n < 10 then Char.ofNat (48 + n) else Char.ofNat (55 + n)

/-- Percent-escape of one byte, `%XX` with upper-case hex
(as `urllib.parse.quote` produces). -/
def pctByte (b : Nat) : String :=
  String.mk ['%', hexDigit (b / 16), hexDigit (b % 16)]

/-- Bytes that `urllib.parse.quote` leaves unescaped with the default
`safe` argument: ALPHA, DIGIT, `-`, `.`, `_`, `~` and the safe char `/`. -/
def isUnreservedByte (b : Nat) : Bool :=
  (48 ≤ b && b ≤ 57) || (65 ≤ b && b ≤ 90) || (97 ≤ b && b ≤ 122) ||
  b == 45 || b == 46 || b == 95 || b == 126 || b == 47

/-- Models `urllib.parse.quote` (default safe characters): percent-encode
the UTF-8 bytes of `s`, keeping unreserved bytes. -/
def quote (s : String) : String :=
  String.join ((utf8Bytes s).map fun b =>
    if isUnreservedByte b then String.mk [Char.ofNat b] else pctByte b)

/-- Character `n` of the standard base64 alphabet (`n < 64`). -/
def b64Char (n : Nat) : Char :=
  if n < 26 then Char.ofNat (65 + n)
  else if n < 52 then Char.ofNat (97 + (n - 26))
  else if n < 62 then Char.ofNat (48 + (n - 52))
  else if n == 62 then '+' else '/'

/-- Standard base64 encoding of a byte list, with `=` padding. -/
def base64Encode : List Nat → String
  | [] => ""
  | [b1] =>
    String.mk [b64Char (b1 / 4), b64Char ((b1 % 4) * 16), '=', '=']
  | [b1, b2] =>
    String.mk [b64Char (b1 / 4), b64Char ((b1 % 4) * 16 + b2 / 16),
               b64Char ((b2 % 16) * 4), '=']
  | b1 :: b2 :: b3 :: rest =>
    String.mk [b64Char (b1 / 4), b64Char ((b1 % 4) * 16 + b2 / 16),
               b64Char ((b2 % 16) * 4 + b3 / 64), b64Char (b3 % 64)]
      ++ base64Encode rest

/-- Models `requests.auth._basic_auth_str`: the value of an HTTP Basic
`Authorization` header for the given username and password. -/
def basic_auth_str (username password : String) : String :=
  "Basic " ++ base64Encode (utf8Bytes (username ++ ":" ++ password))

/-! ## Python values and exceptions -/

/-- The dynamically-typed Python values this module passes around:
strings, string-valued dicts, ints, bools and `None`. -/
inductive PyObj where
  | pyNone
  | pyStr (s : String)
  | pyInt (n : Int)
  | pyBool (b : Bool)
  | pyDict (d : List (String × String))
deriving DecidableEq, Repr

/-- Python truthiness of a `PyObj` (`if not body:` tests). -/
def pyFalsy : PyObj → Bool
  | PyObj.pyNone => true
  | PyObj.pyStr s => s == ""
  | PyObj.pyInt n => n == 0
  | PyObj.pyBool b => !b
  | PyObj.pyDict d => d.isEmpty

/-- Rendering of `type(x)` as Python prints it, e.g. `<class 'int'>`. -/
def pyTypeName : PyObj → String
  | PyObj.pyNone => "<class \x27NoneType\x27>"
  | PyObj.pyStr _ => "<class \x27str\x27>"
  | PyObj.pyInt _ => "<class \x27int\x27>"
  | PyObj.pyBool _ => "<class \x27bool\x27>"
  | PyObj.pyDict _ => "<class \x27dict\x27>"

/-- The exceptions the embedded code can raise. -/
inductive PyError where
  | typeError (msg : String)
  | attributeError (msg : String)
deriving DecidableEq, Repr

/-! ## Association lists (Python dicts, insertion-ordered) -/

/-- Set a key in a Python dict: update in place when the key exists
(keeping its position), append otherwise. -/
def assocSet {α : Type} : List (String × α) → String → α → List (String × α)
  | [], k, v => [(k, v)]
  | (k0, v0) :: rest, k, v =>
    if k0 == k then (k0, v) :: rest else (k0, v0) :: assocSet rest k v

/-- Look a key up in a Python dict. -/
def assocLookup {α : Type} : List (String × α) → String → Option α
  | [], _ => none
  | (k0, v0) :: rest, k => if k0 == k then some v0 else assocLookup rest k

/-- Models `dict(base, **upd)`: start from `base`, set every pair of `upd`. -/
def dictUpdate {α : Type} (base upd : List (String × α)) : List (String × α) :=
  upd.foldl (fun acc kv => assocSet acc kv.1 kv.2) base

/-! ## Case-insensitive header dictionaries (bottle's header objects) -/

/-- Set a header, replacing any entry whose key matches case-insensitively
(bottle's `HeaderDict.__setitem__`). -/
def setHdr : List (String × String) → String → String → List (String × String)
  | [], k, v => [(k, v)]
  | (k0, v0) :: rest, k, v =>
    if lowerStr k0 == lowerStr k then (k, v) :: rest
    else (k0, v0) :: setHdr rest k v

/-- Case-insensitive header lookup (bottle's header dictionaries). -/
def headerGet : List (String × String) → String → Option String
  | [], _ => none
  | (k0, v0) :: rest, k =>
    if lowerStr k0 == lowerStr k then some v0 else headerGet rest k

/-- Write every pair of the dict `hd` into the header list `base`
(the `for k, v in headers.items()` loop of `set_response`). -/
def applyHeaders (base hd : List (String × String)) : List (String × String) :=
  hd.foldl (fun acc kv => setHdr acc kv.1 kv.2) base

/-! ## JSON values and `json.loads` -/

/-- The values `json.loads` can produce (numbers restricted to integers;
this module's bodies carry no floats). Objects are insertion-ordered
association lists, duplicate keys collapsed as Python dicts do. -/
inductive Json where
  | null
  | bool (b : Bool)
  | num (n : Int)
  | str (s : String)
  | arr (elems : List Json)
  | obj (members : List (String × Json))

/-- Skip JSON whitespace. -/
def skipWs : List Char → List Char
  | c :: cs =>
    if c == ' ' || c == '\t' || c == '\n' || c == '\r' then skipWs cs
    else c :: cs
  | [] => []

/-- Parse the body of a JSON string literal after the opening quote:
returns the decoded characters and the remainder after the closing quote.
Handles the single-character escapes; `\u` escapes are not modelled
(the parse fails on them). -/
def parseStrBody : List Char → Option (List Char × List Char)
  | [] => none
  | c :: cs =>
    if c == '"' then some ([], cs)
    else if c == '\\' then
      match cs with
      | [] => none
      | e :: cs2 =>
        let dec : Option Char :=
          if e == '"' then some '"'
          else if e == '\\' then some '\\'
          else if e == '/' then some '/'
          else if e == 'n' then some '\n'
          else if e == 't' then some '\t'
          else if e == 'r' then some '\r'
          else if e == 'b' then some (Char.ofNat 8)
          else if e == 'f' then some (Char.ofNat 12)
          else none
        match dec with
        | none => none
        | some d =>
          match parseStrBody cs2 with
          | some (rest, rem) => some (d :: rest, rem)
          | none => none
    else
      match parseStrBody cs with
      | some (rest, rem) => some (c :: rest, rem)
      | none => none

/-- Is `c` an ASCII digit. -/
def isDigitChar (c : Char) : Bool := 48 ≤ c.toNat && c.toNat ≤ 57

/-- Split the longest digit prefix off a character list. -/
def takeDigits : List Char → (List Char × List Char)
  | [] => ([], [])
  | c :: cs =>
    if isDigitChar c then
      let (ds, rest) := takeDigits cs
      (c :: ds, rest)
    else ([], c :: cs)

/-- Digit characters to the natural number they denote. -/
def digitsToNat (ds : List Char) : Nat :=
  ds.foldl (fun acc c => acc * 10 + (c.toNat - 48)) 0

mutual

/-- Fuel-indexed JSON value parser; models `json.loads`' grammar on the
fragment this module can encounter (no floats, no `\u` escapes). -/
def parseVal : Nat → List Char → Option (Json × List Char)
  | 0, _ => none
  | fuel + 1, cs0 =>
    match skipWs cs0 with
    | [] => none
    | c :: rest =>
      if c == '"' then
        match parseStrBody rest with
        | some (chs, rem) => some (Json.str (String.mk chs), rem)
        | none => none
      else if c == 't' then
        if isPrefixChars ['r', 'u', 'e'] rest
        then some (Json.bool true, rest.drop 3) else none
      else if c == 'f' then
        if isPrefixChars ['a', 'l', 's', 'e'] rest
        then some (Json.bool false, rest.drop 4) else none
      else if c == 'n' then
        if isPrefixChars ['u', 'l', 'l'] rest
        then some (Json.null, rest.drop 3) else none
      else if c == '-' then
        match takeDigits rest with
        | ([], _) => none
        | (ds, rem) => some (Json.num (-(digitsToNat ds : Int)), rem)
      else if isDigitChar c then
        match takeDigits (c :: rest) with
        | ([], _) => none
        | (ds, rem) => some (Json.num (digitsToNat ds : Int), rem)
      else if c == Char.ofNat 91 then -- opening square bracket
        match skipWs rest with
        | c2 :: rest2 =>
          if c2 == Char.ofNat 93 then some (Json.arr [], rest2)
          else
            match parseItems fuel (c2 :: rest2) [] with
            | some (elems, rem) => some (Json.arr elems, rem)
            | none => none
        | [] => none
      else if c == Char.ofNat 123 then -- opening brace
        match skipWs rest with
        | c2 :: rest2 =>
          if c2 == Char.ofNat 125 then some (Json.obj [], rest2)
          else
            match parseMembers fuel (c2 :: rest2) [] with
            | some (mem, rem) => some (Json.obj mem, rem)
            | none => none
        | [] => none
      else none

/-- Parse array items separated by commas, up to the closing bracket. -/
def parseItems : Nat → List Char → List Json → Option (List Json × List Char)
  | 0, _, _ => none
  | fuel + 1, cs, acc =>
    match parseVal fuel cs with
    | none => none
    | some (v, rem) =>
      match skipWs rem with
      | c :: rest =>
        if c == ',' then parseItems fuel rest (acc ++ [v])
        else if c == Char.ofNat 93 then some (acc ++ [v], rest)
        else none
      | [] => none

/-- Parse object members separated by commas, up to the closing brace.
Members are accumulated with `assocSet`, so duplicate keys collapse
exactly as they do in a Python dict. -/
def parseMembers : Nat → List Char → List (String × Json) →
    Option (List (String × Json) × List Char)
  | 0, _, _ => none
  | fuel + 1, cs, acc =>
    match skipWs cs with
    | c :: rest =>
      if c == '"' then
        match parseStrBody rest with
        | none => none
        | some (kchs, rem) =>
          match skipWs rem with
          | c2 :: rest2 =>
            if c2 == ':' then
              match parseVal fuel rest2 with
              | none => none
              | some (v, rem2) =>
                let acc2 := assocSet acc (String.mk kchs) v
                match skipWs rem2 with
                | c3 :: rest3 =>
                  if c3 == ',' then parseMembers fuel rest3 acc2
                  else if c3 == Char.ofNat 125 then some (acc2, rest3)
                  else none
                | [] => none
            else none
          | [] => none
      else none
    | [] => none

end

/-- Models `json.loads`: the whole input must be one JSON value, possibly
surrounded by whitespace; `none` is a `JSONDecodeError`. -/
def jsonLoads (s : String) : Option Json :=
  match parseVal (s.data.length + 1) s.data with
  | some (v, rem) => if (skipWs rem).isEmpty then some v else none
  | none => none

/-! ## Python rendering of parsed JSON values -/

/-- Python `repr` of a string (the quoting rule `repr` uses: single quotes
unless the string holds a single quote and no double quote; escaping the
backslash, the chosen quote, and the common control characters). -/
def pyReprStr (s : String) : String :=
  let sq : Char := Char.ofNat 39
  let q : Char :=
    if s.data.contains sq && !(s.data.contains '"') then '"' else sq
  let esc : Char → String := fun c =>
    if c == '\\' then "\\\\"
    else if c == q then String.mk ['\\', q]
    else if c == '\n' then "\\n"
    else if c == '\r' then "\\r"
    else if c == '\t' then "\\t"
    else String.mk [c]
  String.mk [q] ++ String.join (s.data.map esc) ++ String.mk [q]

mutual

/-- Python `repr` of a value produced by `json.loads`. -/
def pythonRepr : Json → String
  | Json.null => "None"
  | Json.bool true => "True"
  | Json.bool false => "False"
  | Json.num n => toString n
  | Json.str s => pyReprStr s
  | Json.arr l => "[" ++ pythonReprList l ++ "]"
  | Json.obj kvs => "\x7b" ++ pythonReprPairs kvs ++ "\x7d"

/-- Comma-separated `repr`s of list elements. -/
def pythonReprList : List Json → String
  | [] => ""
  | [x] => pythonRepr x
  | x :: y :: xs => pythonRepr x ++ ", " ++ pythonReprList (y :: xs)

/-- Comma-separated `repr`s of dict entries. -/
def pythonReprPairs : List (String × Json) → String
  | [] => ""
  | [(k, v)] => pyReprStr k ++ ": " ++ pythonRepr v
  | (k, v) :: p :: xs =>
    pyReprStr k ++ ": " ++ pythonRepr v ++ ", " ++ pythonReprPairs (p :: xs)

end

/-- Python `str` of a value produced by `json.loads` (what
`"...".format(v)` interpolates): strings verbatim, others via `repr`. -/
def pythonStr : Json → String
  | Json.str s => s
  | v => pythonRepr v

/-- The Python type name of a `json.loads` result, quoted as it appears
in an `AttributeError` message. -/
def jsonTypeName : Json → String
  | Json.null => "\x27NoneType\x27"
  | Json.bool _ => "\x27bool\x27"
  | Json.num _ => "\x27int\x27"
  | Json.str _ => "\x27str\x27"
  | Json.arr _ => "\x27list\x27"
  | Json.obj _ => "\x27dict\x27"

/-- The value slot of one form-encoded pair:
`quote(v) if isinstance(v, str) else v` interpolated by `format`. -/
def formEncodeVal : Json → String
  | Json.str v => quote v
  | v => pythonStr v

/-- The form-urlencoded re-encoding `set_response` builds from a parsed
JSON object: `key=value` pairs joined with `&`, string keys and string
values percent-encoded (keys of a JSON object are always strings). -/
def formEncode (kvs : List (String × Json)) : String :=
  String.intercalate "&" (kvs.map fun kv => quote kv.1 ++ "=" ++ formEncodeVal kv.2)

/-! ## Framework request and response objects -/

/-- Values stored in the `oauth` attribute attached to the request:
`client` and `user` are opaque engine values (kept as strings here),
`scopes` is a list of scope strings. -/
inductive OVal where
  | s (v : String)
  | l (v : List String)
deriving DecidableEq, Repr

/-- The inbound bottle request object, restricted to the attributes this
module reads: `url`, `method`, `headers` (case-insensitive lookup),
`forms` (POST fields), `query` (query-string fields), the raw `body`,
the parsed HTTP Basic `auth` tuple, and the dynamically attached
`oauth` attribute (`none` models the attribute being absent). -/
structure Request where
  url : String
  method : String
  headers : List (String × String)
  forms : List (String × String)
  query : List (String × String)
  body : PyObj
  auth : Option (String × String)
  oauth : Option (List (String × OVal))
deriving DecidableEq, Repr

/-- `bottle_request.content_type`: the `Content-Type` header or `""`. -/
def content_type (req : Request) : String :=
  (headerGet req.headers "Content-Type").getD ""

/-- `bottle_request.params.get(k, '')`: combined form and query fields,
form fields taking precedence (bottle builds `params` from `query` then
`forms`, the later write winning). -/
def paramsGet (req : Request) (k : String) : String :=
  ((assocLookup req.forms k).orElse fun _ => assocLookup req.query k).getD ""

/-- The outbound bottle response object: status, headers (written through
the case-insensitive header dict) and body. -/
structure Response where
  status : Nat
  headers : List (String × String)
  body : String
deriving DecidableEq, Repr

/-! ## `extract_params` -/

/-- The tuple `extract_params` returns:
`uri, http_method, body, headers`. -/
structure ReqTuple where
  uri : String
  http_method : String
  body : PyObj
  headers : List (String × String)
deriving DecidableEq, Repr

/-- Embedding of `extract_params` (oauth2.py lines 16-51).

The HTTP Basic tuple gives `username`/`password` (both `None` when the
request carries no Basic auth). Form-urlencoded requests get the
credentials merged into the form fields as `client_id`/`client_secret`
(form fields overriding, `dict(client, **forms)`); all other requests
pass the raw body through and gain an `Authorization` header built by
`requests.auth._basic_auth_str` when credentials are present. -/
def extract_params (req : Request) : ReqTuple :=
  if strContainsSub "application/x-www-form-urlencoded" (content_type req) then
    let client : List (String × String) :=
      match req.auth with
      | some (u, p) => [("client_id", u), ("client_secret", p)]
      | none => []
    { uri := req.url
      http_method := req.method
      body := PyObj.pyDict (dictUpdate client req.forms)
      headers := req.headers }
  else
    let basic_auth : List (String × String) :=
      match req.auth with
      | some (u, p) => [("Authorization", basic_auth_str u p)]
      | none => []
    { uri := req.url
      http_method := req.method
      body := req.body
      headers := dictUpdate req.headers basic_auth }

/-! ## `add_params_to_request` -/

/-- Embedding of `add_params_to_request` (oauth2.py lines 54-61): ensure
the request's `oauth` attribute exists (creating an empty dict when
absent), then write every pair of `params` into it. -/
def add_params_to_request (req : Request) (params : List (String × OVal)) :
    Request :=
  let base := req.oauth.getD []
  { req with oauth := some (params.foldl (fun acc kv => assocSet acc kv.1 kv.2) base) }

/-! ## `set_response` -/

/-- Embedding of `set_response` (oauth2.py lines 64-115).

Raises `TypeError` when `headers` is not a dict; writes status and
headers; returns when the body is falsy; raises `TypeError` when the
body is not a string; a body that is not JSON is written verbatim; a
JSON body is written verbatim with JSON content type when `force_json`
is set or the request's `Accept` header equals `application/json`, and
otherwise re-encoded as form-urlencoded pairs (a parsed value that is
not a dict has no `.items()`, an `AttributeError`). -/
def set_response (req : Request) (resp : Response) (status : Nat)
    (headers body : PyObj) (force_json : Bool) : Except PyError Response :=
  match headers with
  | PyObj.pyDict hd =>
    let resp1 : Response :=
      { resp with status := status, headers := applyHeaders resp.headers hd }
    if pyFalsy body then Except.ok resp1
    else
      match body with
      | PyObj.pyStr s =>
        match jsonLoads s with
        | none => Except.ok { resp1 with body := s }
        | some values =>
          if force_json || headerGet req.headers "Accept" == some "application/json" then
            Except.ok { resp1 with
              headers := setHdr resp1.headers "Content-Type" "application/json;charset=UTF-8"
              body := s }
          else
            match values with
            | Json.obj kvs =>
              Except.ok { resp1 with
                headers := setHdr resp1.headers "Content-Type"
                  "application/x-www-form-urlencoded;charset=UTF-8"
                body := formEncode kvs }
            | v =>
              Except.error (PyError.attributeError
                (jsonTypeName v ++ " object has no attribute \x27items\x27"))
      | _ =>
        Except.error (PyError.typeError
          ("a str-like object is required, not " ++ pyTypeName body))
  | _ =>
    Except.error (PyError.typeError
      ("a dict-like object is required, not " ++ pyTypeName headers))

/-! ## Callable-or-static arguments and the decorator wrappers -/

/-- A Python value passed for `credentials` (or `scopes`) that the
wrapper tries to call: a plain non-callable value, a callable that
returns a result when applied to the request, or a callable whose
invocation itself raises `TypeError` (for instance one of the wrong
arity). -/
inductive DynArg (α : Type) where
  | static (v : α)
  | fn (f : Request → α)
  | fnTypeError

/-- A Python `callable` test on a `DynArg`. -/
def isInvocable {α : Type} : DynArg α → Bool
  | DynArg.static _ => false
  | DynArg.fn _ => true
  | DynArg.fnTypeError => true

/-- The resolved value is a plain value (rather than the original
callable object falling through the `except TypeError`). -/
def isStaticResult {α : Type} : DynArg α → Bool
  | DynArg.static _ => true
  | DynArg.fn _ => false
  | DynArg.fnTypeError => false

/-- Embedding of the `try: x(bottle.request) except TypeError: x`
resolution used for `credentials` (oauth2.py lines 132-136) and `scopes`
(lines 155-159): a successful call yields its result; a `TypeError` --
whether because the value is not callable or because the call itself
raises one -- falls back to the original value. -/
def resolveDyn {α : Type} : DynArg α → Request → DynArg α
  | DynArg.static v, _ => DynArg.static v
  | DynArg.fn f, req => DynArg.static (f req)
  | DynArg.fnTypeError, _ => DynArg.fnTypeError

/-- The engine's `create_token_response`: takes the request tuple plus
the resolved credentials, returns `(headers, body, status)`. -/
def TokenEngine : Type :=
  String → String → PyObj → List (String × String) → DynArg PyObj →
    PyObj × PyObj × Nat

/-- The engine's `verify_request`: takes the request tuple plus the
resolved scopes, returns `(valid, request_result)`. -/
structure OAuthResult where
  client : String
  user : String
  scopes : List String
deriving DecidableEq, Repr

/-- The engine's `verify_request` operation type. -/
def VerifyEngine : Type :=
  String → String → PyObj → List (String × String) → DynArg (List String) →
    Bool × OAuthResult

/-- The engine's `create_introspect_response` operation type. -/
def IntrospectEngine : Type :=
  String → String → PyObj → List (String × String) → PyObj × PyObj × Nat

/-- The engine's `create_authorization_response` operation type (scopes
from the request's `scope` parameter). -/
def AuthzEngine : Type :=
  String → String → PyObj → List (String × String) → List String →
    PyObj × PyObj × Nat

/-- What a wrapper returns to bottle: the wrapped handler's value, the
mutated response object (when the handler returned a falsy value), a
framework `HTTPError`, or a propagating Python exception. -/
inductive WrapperResult where
  | handlerResult (v : PyObj)
  | responseObj (r : Response)
  | httpError (status : Nat) (msg : String)
  | pyError (e : PyError)
deriving DecidableEq, Repr

/-- Embedding of the `create_token_response` wrapper body (oauth2.py
lines 126-146): resolve credentials, extract the request tuple, delegate
to the engine, write the response, call the handler, and return the
handler's value unless it is falsy, in which case return the response
object. Returns the wrapper's value and the final response object. -/
def create_token_response (engine : TokenEngine) (credentials : DynArg PyObj)
    (f : Request → Response → PyObj) (req : Request) (resp : Response) :
    WrapperResult × Response :=
  let credentials_extra := resolveDyn credentials req
  let t := extract_params req
  let out := engine t.uri t.http_method t.body t.headers credentials_extra
  match set_response req resp out.2.2 out.1 out.2.1 false with
  | Except.error e => (WrapperResult.pyError e, resp)
  | Except.ok resp2 =>
    let func_response := f req resp2
    if pyFalsy func_response then (WrapperResult.responseObj resp2, resp2)
    else (WrapperResult.handlerResult func_response, resp2)

/-- Embedding of the `verify_request` wrapper body (oauth2.py lines
148-176): resolve scopes, extract the request tuple, delegate to the
engine, attach `client`/`user`/`scopes` onto the request, then call the
handler when valid and return its value, or return an `HTTPError 403`
when invalid. Returns the wrapper's value, the mutated request and the
(untouched) response object. -/
def verify_request (engine : VerifyEngine) (scopes : DynArg (List String))
    (f : Request → Response → PyObj) (req : Request) (resp : Response) :
    WrapperResult × Request × Response :=
  let scopes_list := resolveDyn scopes req
  let t := extract_params req
  let out := engine t.uri t.http_method t.body t.headers scopes_list
  let req2 := add_params_to_request req
    [("client", OVal.s out.2.client),
     ("user", OVal.s out.2.user),
     ("scopes", OVal.l out.2.scopes)]
  if out.1 then (WrapperResult.handlerResult (f req2 resp), req2, resp)
  else (WrapperResult.httpError 403 "Permission denied", req2, resp)

/-- Embedding of the `create_introspect_response` wrapper body (oauth2.py
lines 178-198): extract the request tuple, delegate to the engine, write
the response with `force_json=True`, call the handler, and return the
handler's value unless it is falsy, in which case return the response
object. -/
def create_introspect_response (engine : IntrospectEngine)
    (f : Request → Response → PyObj) (req : Request) (resp : Response) :
    WrapperResult × Response :=
  let t := extract_params req
  let out := engine t.uri t.http_method t.body t.headers
  match set_response req resp out.2.2 out.1 out.2.1 true with
  | Except.error e => (WrapperResult.pyError e, resp)
  | Except.ok resp2 =>
    let func_response := f req resp2
    if pyFalsy func_response then (WrapperResult.responseObj resp2, resp2)
    else (WrapperResult.handlerResult func_response, resp2)

/-- Embedding of the `create_authorization_response` wrapper body
(oauth2.py lines 200-218): extract the request tuple, split the `scope`
request parameter on spaces, delegate to the engine, write the response,
call the handler, and return the handler's value unless it is falsy, in
which case return the response object. -/
def create_authorization_response (engine : AuthzEngine)
    (f : Request → Response → PyObj) (req : Request) (resp : Response) :
    WrapperResult × Response :=
  let t := extract_params req
  let scope := (paramsGet req "scope").splitOn " "
  let out := engine t.uri t.http_method t.body t.headers scope
  match set_response req resp out.2.2 out.1 out.2.1 false with
  | Except.error e => (WrapperResult.pyError e, resp)
  | Except.ok resp2 =>
    let func_response := f req resp2
    if pyFalsy func_response then (WrapperResult.responseObj resp2, resp2)
    else (WrapperResult.handlerResult func_response, resp2)

/-! ## Sample requests, responses, handlers and engines -/

/-- A bare request: no headers, no form fields, no Basic auth, no
`oauth` attribute. -/
def req0 : Request :=
  { url := "https://srv.example/token", method := "POST", headers := [],
    forms := [], query := [], body := PyObj.pyStr "", auth := none,
    oauth := none }

/-- A request whose `Accept` header is exactly `application/json`. -/
def reqAccJson : Request :=
  { req0 with headers := [("Accept", "application/json")] }

/-- A request whose `Accept` header is `application/x-www-form-urlencoded`. -/
def reqAccForm : Request :=
  { req0 with headers := [("Accept", "application/x-www-form-urlencoded")] }

/-- A form-urlencoded request with HTTP Basic credentials and one form
field. -/
def reqForm : Request :=
  { req0 with
      headers := [("Content-Type", "application/x-www-form-urlencoded")],
      forms := [("grant_type", "password")],
      auth := some ("user1", "pass1") }

/-- A JSON request with HTTP Basic credentials (not form-urlencoded). -/
def reqJsonAuth : Request :=
  { req0 with
      headers := [("Content-Type", "application/json")],
      body := PyObj.pyStr "\x7b\x7d",
      auth := some ("user1", "pass1") }

/-- A Bearer-token request with no Basic credentials. -/
def reqBearer : Request :=
  { req0 with headers := [("Authorization", "Bearer tok")] }

/-- A fresh response object. -/
def resp0 : Response := { status := 200, headers := [], body := "" }

/-- A sample verification result returned by the engine. -/
def r0 : OAuthResult := { client := "client0", user := "user0", scopes := ["read"] }

/-- A handler returning `None` (falsy). -/
def f0 : Request → Response → PyObj := fun _ _ => PyObj.pyNone

/-- A handler returning a truthy string. -/
def g0 : Request → Response → PyObj := fun _ _ => PyObj.pyStr "handled"

/-- An engine whose verification always fails. -/
def engineVfalse : VerifyEngine := fun _ _ _ _ _ => (false, r0)

/-- An engine whose verification always succeeds. -/
def engineVtrue : VerifyEngine := fun _ _ _ _ _ => (true, r0)

/-- A token engine that reports, in the response body, whether the
credentials it was handed were a plain resolved value or a callable
object that fell through the `except TypeError`. -/
def engineProbe : TokenEngine := fun _ _ _ _ cred =>
  (PyObj.pyDict [],
   PyObj.pyStr (if isStaticResult cred then "resolved-value" else "callable-object"),
   200)

/-- A token engine returning an empty body. -/
def engineTok0 : TokenEngine := fun _ _ _ _ _ => (PyObj.pyDict [], PyObj.pyStr "", 200)

/-- An introspection engine returning a JSON body. -/
def engineIntro0 : IntrospectEngine := fun _ _ _ _ =>
  (PyObj.pyDict [], PyObj.pyStr "\x7b\"active\": true\x7d", 200)

/-- An authorization engine returning an empty body with a redirect. -/
def engineAuthz0 : AuthzEngine := fun _ _ _ _ _ =>
  (PyObj.pyDict [], PyObj.pyStr "", 302)

/-! ## Dictionary lemmas -/

/-- Looking up after a `assocSet`: the set key now maps to the new value,
every other key is untouched. -/
theorem assocLookup_assocSet {α : Type} (l : List (String × α))
    (k k' : String) (v : α) :
    assocLookup (assocSet l k' v) k =
      if k' == k then some v else assocLookup l k := by
  induction l with
  | nil => simp [assocSet, assocLookup]
  | cons hd tl ih =>
    obtain ⟨k0, v0⟩ := hd
    by_cases h1 : k0 = k'
    · subst h1
      by_cases h2 : k0 = k
      · subst h2; simp [assocSet, assocLookup]
      · simp [assocSet, assocLookup, h2]
    · by_cases h2 : k0 = k
      · subst h2
        have h3 : ¬(k' = k0) := fun h => h1 h.symm
        simp [assocSet, assocLookup, h1, h3]
      · simp [assocSet, assocLookup, h1, h2, ih]

/-- A key present before a `dictUpdate` is still present after it. -/
theorem assocLookup_isSome_dictUpdate {α : Type} (ups l : List (String × α))
    (k : String) (h : (assocLookup l k).isSome = true) :
    (assocLookup (dictUpdate l ups) k).isSome = true := by
  induction ups generalizing l with
  | nil => simpa [dictUpdate] using h
  | cons u rest ih =>
    have hstep : dictUpdate l (u :: rest) = dictUpdate (assocSet l u.1 u.2) rest := rfl
    rw [hstep]
    apply ih
    rw [assocLookup_assocSet]
    split
    · simp
    · exact h

/-- Looking up the header just written by `setHdr` yields its value. -/
theorem headerGet_setHdr_self (l : List (String × String)) (k v : String) :
    headerGet (setHdr l k v) k = some v := by
  induction l with
  | nil => simp [setHdr, headerGet]
  | cons hd tl ih =>
    obtain ⟨k0, v0⟩ := hd
    by_cases h : lowerStr k0 = lowerStr k
    · simp [setHdr, headerGet, h]
    · simp [setHdr, headerGet, h, ih]

/-- A string that `json.loads` accepts is not empty. -/
theorem jsonLoads_some_ne_empty {s : String} {v : Json}
    (h : jsonLoads s = some v) : s ≠ "" := by
  intro he
  rw [he] at h
  have h0 : jsonLoads "" = none := rfl
  rw [h0] at h
  exact Option.noConfusion h

/-! ## Claim theorems -/

/-- C1: for every request whose verification by the engine returns
`valid = False`, the `verify_request` wrapper returns an HTTP 403
Permission Denied response, and the wrapped handler is never invoked
(the wrapper's outcome does not depend on the handler), for every value
of the `scopes` argument. -/
theorem verify_request_invalid_403 (engine : VerifyEngine)
    (scopes : DynArg (List String)) (f g : Request → Response → PyObj)
    (req : Request) (resp : Response) (r : OAuthResult)
    (hE : engine (extract_params req).uri (extract_params req).http_method
        (extract_params req).body (extract_params req).headers
        (resolveDyn scopes req) = (false, r)) :
    (verify_request engine scopes f req resp).1 =
        WrapperResult.httpError 403 "Permission denied"
    ∧ verify_request engine scopes f req resp =
        verify_request engine scopes g req resp := by
  constructor <;> simp [verify_request, hE]

/-- Witness for C1 at a concrete failing engine. -/
theorem verify_request_invalid_403_witness :
    (verify_request engineVfalse (DynArg.static []) f0 req0 resp0).1 =
        WrapperResult.httpError 403 "Permission denied"
    ∧ verify_request engineVfalse (DynArg.static []) f0 req0 resp0 =
        verify_request engineVfalse (DynArg.static []) g0 req0 resp0 :=
  verify_request_invalid_403 engineVfalse (DynArg.static []) f0 g0 req0 resp0 r0 rfl

/-- C2: for a call to `set_response` whose body parses as a JSON object,
the body is written verbatim with content type
`application/json;charset=UTF-8` when `force_json` is set or the
request's `Accept` header is exactly `application/json`, and otherwise
re-encoded as the `&`-joined `key=value` pairs (string keys and string
values percent-encoded, other values rendered unencoded) with content
type `application/x-www-form-urlencoded;charset=UTF-8`. -/
theorem set_response_json_object_negotiation (req : Request) (resp : Response)
    (status : Nat) (hd : List (String × String)) (s : String)
    (kvs : List (String × Json)) (fj : Bool)
    (hJ : jsonLoads s = some (Json.obj kvs)) :
    ((fj || headerGet req.headers "Accept" == some "application/json") = true →
      set_response req resp status (PyObj.pyDict hd) (PyObj.pyStr s) fj =
        Except.ok { status := status,
                    headers := setHdr (applyHeaders resp.headers hd) "Content-Type"
                      "application/json;charset=UTF-8",
                    body := s })
    ∧ ((fj || headerGet req.headers "Accept" == some "application/json") = false →
      set_response req resp status (PyObj.pyDict hd) (PyObj.pyStr s) fj =
        Except.ok { status := status,
                    headers := setHdr (applyHeaders resp.headers hd) "Content-Type"
                      "application/x-www-form-urlencoded;charset=UTF-8",
                    body := formEncode kvs }) := by
  have hs : s ≠ "" := jsonLoads_some_ne_empty hJ
  constructor <;> intro hc <;> simp [set_response, hJ, hc, pyFalsy, hs]

/-- Witness for C2: the body `{"a": "1", "b": "2"}` written once to a
request accepting JSON and once to a request with no `Accept` header. -/
theorem set_response_json_object_negotiation_witness :
    set_response reqAccJson resp0 200 (PyObj.pyDict [])
        (PyObj.pyStr "\x7b\"a\": \"1\", \"b\": \"2\"\x7d") false =
      Except.ok { status := 200,
                  headers := [("Content-Type", "application/json;charset=UTF-8")],
                  body := "\x7b\"a\": \"1\", \"b\": \"2\"\x7d" }
    ∧ set_response req0 resp0 200 (PyObj.pyDict [])
        (PyObj.pyStr "\x7b\"a\": \"1\", \"b\": \"2\"\x7d") false =
      Except.ok { status := 200,
                  headers := [("Content-Type",
                    "application/x-www-form-urlencoded;charset=UTF-8")],
                  body := "a=1&b=2" } :=
  ⟨(set_response_json_object_negotiation reqAccJson resp0 200 []
      "\x7b\"a\": \"1\", \"b\": \"2\"\x7d"
      [("a", Json.str "1"), ("b", Json.str "2")] false rfl).1 rfl,
   (set_response_json_object_negotiation req0 resp0 200 []
      "\x7b\"a\": \"1\", \"b\": \"2\"\x7d"
      [("a", Json.str "1"), ("b", Json.str "2")] false rfl).2 rfl⟩

/-- C3: for a form-urlencoded request with an HTTP Basic auth tuple,
`extract_params` returns a body dict that is `client_id`/`client_secret`
merged with the original form fields (and contains both keys), and the
returned headers are the original request headers unchanged. -/
theorem extract_params_form_basic (req : Request) (u p : String)
    (hct : strContainsSub "application/x-www-form-urlencoded" (content_type req) = true)
    (hauth : req.auth = some (u, p)) :
    extract_params req =
      { uri := req.url, http_method := req.method,
        body := PyObj.pyDict
          (dictUpdate [("client_id", u), ("client_secret", p)] req.forms),
        headers := req.headers }
    ∧ (assocLookup (dictUpdate [("client_id", u), ("client_secret", p)] req.forms)
        "client_id").isSome = true
    ∧ (assocLookup (dictUpdate [("client_id", u), ("client_secret", p)] req.forms)
        "client_secret").isSome = true := by
  refine ⟨by simp [extract_params, hct, hauth], ?_, ?_⟩
  · exact assocLookup_isSome_dictUpdate req.forms _ _ (by simp [assocLookup])
  · exact assocLookup_isSome_dictUpdate req.forms _ _ (by simp [assocLookup])

/-- Witness for C3 at a concrete form request with Basic credentials. -/
theorem extract_params_form_basic_witness :
    extract_params reqForm =
      { uri := "https://srv.example/token", http_method := "POST",
        body := PyObj.pyDict [("client_id", "user1"), ("client_secret", "pass1"),
                              ("grant_type", "password")],
        headers := [("Content-Type", "application/x-www-form-urlencoded")] }
    ∧ (assocLookup (dictUpdate [("client_id", "user1"), ("client_secret", "pass1")]
        reqForm.forms) "client_id").isSome = true
    ∧ (assocLookup (dictUpdate [("client_id", "user1"), ("client_secret", "pass1")]
        reqForm.forms) "client_secret").isSome = true :=
  extract_params_form_basic reqForm "user1" "pass1" rfl rfl

/-- C4: for a request whose content type is not form-urlencoded,
`extract_params` passes the body through unmodified; with Basic
credentials present the headers gain an
`Authorization: Basic <base64(user:pass)>` entry, and with none they
pass through unchanged. -/
theorem extract_params_nonform (req : Request)
    (hct : strContainsSub "application/x-www-form-urlencoded" (content_type req) = false) :
    (∀ u p, req.auth = some (u, p) →
      extract_params req =
        { uri := req.url, http_method := req.method, body := req.body,
          headers := assocSet req.headers "Authorization" (basic_auth_str u p) }
      ∧ assocLookup (extract_params req).headers "Authorization" =
          some ("Basic " ++ base64Encode (utf8Bytes (u ++ ":" ++ p))))
    ∧ (req.auth = none →
      extract_params req =
        { uri := req.url, http_method := req.method, body := req.body,
          headers := req.headers }) := by
  constructor
  · intro u p hauth
    have h1 : extract_params req =
        { uri := req.url, http_method := req.method, body := req.body,
          headers := assocSet req.headers "Authorization" (basic_auth_str u p) } := by
      simp [extract_params, hct, hauth, dictUpdate]
    refine ⟨h1, ?_⟩
    rw [h1]
    show assocLookup (assocSet req.headers "Authorization" (basic_auth_str u p))
        "Authorization" = some ("Basic " ++ base64Encode (utf8Bytes (u ++ ":" ++ p)))
    rw [assocLookup_assocSet]
    simp [basic_auth_str]
  · intro hauth
    simp [extract_params, hct, hauth, dictUpdate]

/-- Witness for C4 at a JSON request with Basic credentials and at a
Bearer request without them. -/
theorem extract_params_nonform_witness :
    (extract_params reqJsonAuth =
      { uri := "https://srv.example/token", http_method := "POST",
        body := PyObj.pyStr "\x7b\x7d",
        headers := [("Content-Type", "application/json"),
                    ("Authorization", "Basic dXNlcjE6cGFzczE=")] }
      ∧ assocLookup (extract_params reqJsonAuth).headers "Authorization" =
          some ("Basic " ++ base64Encode (utf8Bytes ("user1" ++ ":" ++ "pass1"))))
    ∧ extract_params reqBearer =
      { uri := "https://srv.example/token", http_method := "POST",
        body := PyObj.pyStr "",
        headers := [("Authorization", "Bearer tok")] } :=
  ⟨(extract_params_nonform reqJsonAuth rfl).1 "user1" "pass1" rfl,
   (extract_params_nonform reqBearer rfl).2 rfl⟩

/-- C5: the introspection wrapper writes the response with JSON forced:
whenever the engine's body is JSON, the final response carries content
type `application/json;charset=UTF-8` for every value of the request's
`Accept` header. -/
theorem introspect_forces_json (engine : IntrospectEngine)
    (f : Request → Response → PyObj) (req : Request) (resp : Response)
    (hd : List (String × String)) (s : String) (status : Nat) (v : Json)
    (hE : engine (extract_params req).uri (extract_params req).http_method
        (extract_params req).body (extract_params req).headers =
        (PyObj.pyDict hd, PyObj.pyStr s, status))
    (hJ : jsonLoads s = some v) :
    set_response req resp status (PyObj.pyDict hd) (PyObj.pyStr s) true =
      Except.ok { status := status,
                  headers := setHdr (applyHeaders resp.headers hd) "Content-Type"
                    "application/json;charset=UTF-8",
                  body := s }
    ∧ headerGet (create_introspect_response engine f req resp).2.headers
        "Content-Type" = some "application/json;charset=UTF-8"
    ∧ (create_introspect_response engine f req resp).2.body = s := by
  have hs : s ≠ "" := jsonLoads_some_ne_empty hJ
  have h1 : set_response req resp status (PyObj.pyDict hd) (PyObj.pyStr s) true =
      Except.ok { status := status,
                  headers := setHdr (applyHeaders resp.headers hd) "Content-Type"
                    "application/json;charset=UTF-8",
                  body := s } := by
    simp [set_response, hJ, pyFalsy, hs]
  have h2 : (create_introspect_response engine f req resp).2 =
      { status := status,
        headers := setHdr (applyHeaders resp.headers hd) "Content-Type"
          "application/json;charset=UTF-8",
        body := s } := by
    simp only [create_introspect_response, hE, h1]
    split <;> rfl
  refine ⟨h1, ?_, ?_⟩
  · rw [h2]; exact headerGet_setHdr_self _ _ _
  · rw [h2]

/-- Witness for C5: an introspection response written to a request whose
`Accept` header is `application/x-www-form-urlencoded`. -/
theorem introspect_forces_json_witness :
    set_response reqAccForm resp0 200 (PyObj.pyDict [])
        (PyObj.pyStr "\x7b\"active\": true\x7d") true =
      Except.ok { status := 200,
                  headers := [("Content-Type", "application/json;charset=UTF-8")],
                  body := "\x7b\"active\": true\x7d" }
    ∧ headerGet (create_introspect_response engineIntro0 f0 reqAccForm resp0).2.headers
        "Content-Type" = some "application/json;charset=UTF-8"
    ∧ (create_introspect_response engineIntro0 f0 reqAccForm resp0).2.body =
        "\x7b\"active\": true\x7d" :=
  introspect_forces_json engineIntro0 f0 reqAccForm resp0 []
    "\x7b\"active\": true\x7d" 200 (Json.obj [("active", Json.bool true)]) rfl rfl

/-- Counterexample for C6: on a failed verification (`valid = False`)
the wrapper still attaches `client`/`user`/`scopes` to the request's
`oauth` mapping — the attachment happens before the `valid` check, so
the request is not left without those fields. -/
theorem verify_attach_on_failure_counterexample :
    req0.oauth = none
    ∧ (verify_request engineVfalse (DynArg.static []) f0 req0 resp0).1 =
        WrapperResult.httpError 403 "Permission denied"
    ∧ (verify_request engineVfalse (DynArg.static []) f0 req0 resp0).2.1.oauth =
        some [("client", OVal.s "client0"), ("user", OVal.s "user0"),
              ("scopes", OVal.l ["read"])] :=
  ⟨rfl, rfl, rfl⟩

/-- C6 amended: the wrapper attaches `client`/`user`/`scopes` from the
engine's result onto the request's `oauth` mapping regardless of the
verification outcome, and this attachment is the only mutation of
request state performed by the layer (every other request field is
unchanged; the response object is untouched). -/
theorem verify_attaches_params_unconditionally (engine : VerifyEngine)
    (scopes : DynArg (List String)) (f : Request → Response → PyObj)
    (req : Request) (resp : Response) (valid : Bool) (r : OAuthResult)
    (hE : engine (extract_params req).uri (extract_params req).http_method
        (extract_params req).body (extract_params req).headers
        (resolveDyn scopes req) = (valid, r)) :
    (verify_request engine scopes f req resp).2.1.oauth =
      some (assocSet (assocSet (assocSet (req.oauth.getD [])
              "client" (OVal.s r.client)) "user" (OVal.s r.user))
              "scopes" (OVal.l r.scopes))
    ∧ (verify_request engine scopes f req resp).2.1.url = req.url
    ∧ (verify_request engine scopes f req resp).2.1.method = req.method
    ∧ (verify_request engine scopes f req resp).2.1.headers = req.headers
    ∧ (verify_request engine scopes f req resp).2.1.forms = req.forms
    ∧ (verify_request engine scopes f req resp).2.1.query = req.query
    ∧ (verify_request engine scopes f req resp).2.1.body = req.body
    ∧ (verify_request engine scopes f req resp).2.1.auth = req.auth
    ∧ (verify_request engine scopes f req resp).2.2 = resp := by
  cases valid <;>
    refine ⟨?_, ?_, ?_, ?_, ?_, ?_, ?_, ?_, ?_⟩ <;>
    simp [verify_request, hE, add_params_to_request]

/-- Witness for the amended C6 at a concrete failing engine. -/
theorem verify_attaches_params_unconditionally_witness :
    (verify_request engineVfalse (DynArg.static []) f0 req0 resp0).2.1.oauth =
      some (assocSet (assocSet (assocSet (req0.oauth.getD [])
              "client" (OVal.s r0.client)) "user" (OVal.s r0.user))
              "scopes" (OVal.l r0.scopes))
    ∧ (verify_request engineVfalse (DynArg.static []) f0 req0 resp0).2.1.url = req0.url
    ∧ (verify_request engineVfalse (DynArg.static []) f0 req0 resp0).2.1.method = req0.method
    ∧ (verify_request engineVfalse (DynArg.static []) f0 req0 resp0).2.1.headers = req0.headers
    ∧ (verify_request engineVfalse (DynArg.static []) f0 req0 resp0).2.1.forms = req0.forms
    ∧ (verify_request engineVfalse (DynArg.static []) f0 req0 resp0).2.1.query = req0.query
    ∧ (verify_request engineVfalse (DynArg.static []) f0 req0 resp0).2.1.body = req0.body
    ∧ (verify_request engineVfalse (DynArg.static []) f0 req0 resp0).2.1.auth = req0.auth
    ∧ (verify_request engineVfalse (DynArg.static []) f0 req0 resp0).2.2 = resp0 :=
  verify_attaches_params_unconditionally engineVfalse (DynArg.static []) f0
    req0 resp0 false r0 rfl

/-- Counterexample for C7: the `verify_request` wrapper has no falsy
fallback — with a valid verification and a handler returning `None`,
the wrapper returns the handler's `None`, not the response object, and
it never writes the response. -/
theorem verify_no_response_fallback_counterexample :
    pyFalsy PyObj.pyNone = true
    ∧ (verify_request engineVtrue (DynArg.static []) f0 req0 resp0).1 =
        WrapperResult.handlerResult PyObj.pyNone
    ∧ (verify_request engineVtrue (DynArg.static []) f0 req0 resp0).1 ≠
        WrapperResult.responseObj resp0
    ∧ (verify_request engineVtrue (DynArg.static []) f0 req0 resp0).2.2 = resp0 := by
  refine ⟨rfl, rfl, ?_, rfl⟩
  decide

/-- C7 amended: for the token, introspection and authorization wrappers,
after delegating to the engine and writing the response, the handler is
invoked; a falsy handler result makes the wrapper return the mutated
response object, any other result is returned as-is. The verify wrapper
writes no response and, on a valid verification, returns the handler's
result unconditionally. -/
theorem wrappers_handler_fallback (engT : TokenEngine) (engI : IntrospectEngine)
    (engA : AuthzEngine) (engV : VerifyEngine) (cred : DynArg PyObj)
    (scopes : DynArg (List String)) (f : Request → Response → PyObj)
    (req : Request) (resp : Response) :
    (∀ hs b st resp2,
      engT (extract_params req).uri (extract_params req).http_method
          (extract_params req).body (extract_params req).headers
          (resolveDyn cred req) = (hs, b, st) →
      set_response req resp st hs b false = Except.ok resp2 →
      create_token_response engT cred f req resp =
        if pyFalsy (f req resp2) then (WrapperResult.responseObj resp2, resp2)
        else (WrapperResult.handlerResult (f req resp2), resp2))
    ∧ (∀ hs b st resp2,
      engI (extract_params req).uri (extract_params req).http_method
          (extract_params req).body (extract_params req).headers = (hs, b, st) →
      set_response req resp st hs b true = Except.ok resp2 →
      create_introspect_response engI f req resp =
        if pyFalsy (f req resp2) then (WrapperResult.responseObj resp2, resp2)
        else (WrapperResult.handlerResult (f req resp2), resp2))
    ∧ (∀ hs b st resp2,
      engA (extract_params req).uri (extract_params req).http_method
          (extract_params req).body (extract_params req).headers
          ((paramsGet req "scope").splitOn " ") = (hs, b, st) →
      set_response req resp st hs b false = Except.ok resp2 →
      create_authorization_response engA f req resp =
        if pyFalsy (f req resp2) then (WrapperResult.responseObj resp2, resp2)
        else (WrapperResult.handlerResult (f req resp2), resp2))
    ∧ (∀ r, engV (extract_params req).uri (extract_params req).http_method
          (extract_params req).body (extract_params req).headers
          (resolveDyn scopes req) = (true, r) →
      (verify_request engV scopes f req resp).1 =
        WrapperResult.handlerResult
          (f (add_params_to_request req
                [("client", OVal.s r.client), ("user", OVal.s r.user),
                 ("scopes", OVal.l r.scopes)]) resp)
      ∧ (verify_request engV scopes f req resp).2.2 = resp) := by
  refine ⟨?_, ?_, ?_, ?_⟩
  · intro hs b st resp2 hE hS
    simp [create_token_response, hE, hS]
  · intro hs b st resp2 hE hS
    simp [create_introspect_response, hE, hS]
  · intro hs b st resp2 hE hS
    simp [create_authorization_response, hE, hS]
  · intro r hE
    constructor <;> simp [verify_request, hE]

/-- Witness for the amended C7: each wrapper applied to a concrete
engine and the `None`-returning handler. -/
theorem wrappers_handler_fallback_witness :
    create_token_response engineTok0 (DynArg.static PyObj.pyNone) f0 req0 resp0 =
      (WrapperResult.responseObj resp0, resp0)
    ∧ create_introspect_response engineIntro0 f0 req0 resp0 =
      (WrapperResult.responseObj
        { status := 200,
          headers := [("Content-Type", "application/json;charset=UTF-8")],
          body := "\x7b\"active\": true\x7d" },
       { status := 200,
         headers := [("Content-Type", "application/json;charset=UTF-8")],
         body := "\x7b\"active\": true\x7d" })
    ∧ create_authorization_response engineAuthz0 f0 req0 resp0 =
      (WrapperResult.responseObj { status := 302, headers := [], body := "" },
       { status := 302, headers := [], body := "" })
    ∧ ((verify_request engineVtrue (DynArg.static []) f0 req0 resp0).1 =
        WrapperResult.handlerResult PyObj.pyNone
      ∧ (verify_request engineVtrue (DynArg.static []) f0 req0 resp0).2.2 = resp0) :=
  ⟨(wrappers_handler_fallback engineTok0 engineIntro0 engineAuthz0 engineVtrue
      (DynArg.static PyObj.pyNone) (DynArg.static []) f0 req0 resp0).1
      (PyObj.pyDict []) (PyObj.pyStr "") 200 resp0 rfl rfl,
   (wrappers_handler_fallback engineTok0 engineIntro0 engineAuthz0 engineVtrue
      (DynArg.static PyObj.pyNone) (DynArg.static []) f0 req0 resp0).2.1
      (PyObj.pyDict []) (PyObj.pyStr "\x7b\"active\": true\x7d") 200
      { status := 200,
        headers := [("Content-Type", "application/json;charset=UTF-8")],
        body := "\x7b\"active\": true\x7d" } rfl rfl,
   (wrappers_handler_fallback engineTok0 engineIntro0 engineAuthz0 engineVtrue
      (DynArg.static PyObj.pyNone) (DynArg.static []) f0 req0 resp0).2.2.1
      (PyObj.pyDict []) (PyObj.pyStr "") 302
      { status := 302, headers := [], body := "" } rfl rfl,
   (wrappers_handler_fallback engineTok0 engineIntro0 engineAuthz0 engineVtrue
      (DynArg.static PyObj.pyNone) (DynArg.static []) f0 req0 resp0).2.2.2
      r0 rfl⟩

/-- C8: `set_response` raises a `TypeError` when `headers` is not a dict,
and when the body is present (truthy) but not a string; the error is the
call's result (it propagates). With a dict and an empty or absent body,
only status and headers are written and the body is untouched. -/
theorem set_response_guards (req : Request) (resp : Response) (status : Nat)
    (headers body : PyObj) (fj : Bool) :
    ((∀ hd, headers ≠ PyObj.pyDict hd) →
      set_response req resp status headers body fj =
        Except.error (PyError.typeError
          ("a dict-like object is required, not " ++ pyTypeName headers)))
    ∧ (∀ hd, headers = PyObj.pyDict hd → pyFalsy body = false →
        (∀ s, body ≠ PyObj.pyStr s) →
        set_response req resp status headers body fj =
          Except.error (PyError.typeError
            ("a str-like object is required, not " ++ pyTypeName body)))
    ∧ (∀ hd, headers = PyObj.pyDict hd → pyFalsy body = true →
        set_response req resp status headers body fj =
          Except.ok { status := status, headers := applyHeaders resp.headers hd,
                      body := resp.body }) := by
  refine ⟨?_, ?_, ?_⟩
  · intro h
    cases headers with
    | pyDict d => exact absurd rfl (h d)
    | pyNone => rfl
    | pyStr s => rfl
    | pyInt n => rfl
    | pyBool b => rfl
  · intro hd hhd hfalse hnstr
    subst hhd
    cases body with
    | pyStr s => exact absurd rfl (hnstr s)
    | pyNone => simp [pyFalsy] at hfalse
    | pyInt n => simp [set_response, hfalse]
    | pyBool b => simp [set_response, hfalse]
    | pyDict d => simp [set_response, hfalse]
  · intro hd hhd htrue
    subst hhd
    simp [set_response, htrue]

/-- Witness for C8: non-dict headers, a dict with a truthy non-string
body, and a dict with an empty body. -/
theorem set_response_guards_witness :
    set_response req0 resp0 401 (PyObj.pyInt 3) (PyObj.pyStr "x") false =
      Except.error (PyError.typeError
        "a dict-like object is required, not <class \x27int\x27>")
    ∧ set_response req0 resp0 401 (PyObj.pyDict []) (PyObj.pyInt 7) false =
      Except.error (PyError.typeError
        "a str-like object is required, not <class \x27int\x27>")
    ∧ set_response req0 resp0 401 (PyObj.pyDict [("WWW-Authenticate", "Bearer")])
        (PyObj.pyStr "") false =
      Except.ok { status := 401, headers := [("WWW-Authenticate", "Bearer")],
                  body := "" } :=
  ⟨(set_response_guards req0 resp0 401 (PyObj.pyInt 3) (PyObj.pyStr "x") false).1
      (fun _ h => PyObj.noConfusion h),
   (set_response_guards req0 resp0 401 (PyObj.pyDict []) (PyObj.pyInt 7) false).2.1
      [] rfl rfl (fun _ h => PyObj.noConfusion h),
   (set_response_guards req0 resp0 401 (PyObj.pyDict [("WWW-Authenticate", "Bearer")])
      (PyObj.pyStr "") false).2.2 [("WWW-Authenticate", "Bearer")] rfl rfl⟩

/-- Counterexample for C9: a callable whose invocation raises
`TypeError` is invocable, yet the `except TypeError` fallback delegates
the callable object itself to the engine, not any call result — the
probing engine observes a callable object, while a successful callable
is indeed resolved to its result. -/
theorem credentials_invocable_counterexample :
    isInvocable (DynArg.fnTypeError : DynArg PyObj) = true
    ∧ isStaticResult (resolveDyn (DynArg.fnTypeError : DynArg PyObj) req0) = false
    ∧ (create_token_response engineProbe DynArg.fnTypeError f0 req0 resp0).2.body =
        "callable-object"
    ∧ (create_token_response engineProbe
        (DynArg.fn fun _ => PyObj.pyStr "extra") f0 req0 resp0).2.body =
        "resolved-value" :=
  ⟨rfl, rfl, rfl, rfl⟩

/-- C9 amended: a callable `credentials`/`scopes` argument whose call
returns normally is resolved to the call's result (the wrapper behaves
exactly as if that result had been passed statically); a non-callable is
used as-is; and a callable whose invocation raises `TypeError` falls
back to the callable object itself. -/
theorem dyn_resolution_semantics (req : Request) (resp : Response)
    (g : Request → PyObj) (v : PyObj) (gs : Request → List String)
    (engT : TokenEngine) (engV : VerifyEngine)
    (f : Request → Response → PyObj) :
    resolveDyn (DynArg.fn g) req = DynArg.static (g req)
    ∧ resolveDyn (DynArg.static v) req = DynArg.static v
    ∧ resolveDyn (DynArg.fnTypeError : DynArg PyObj) req = DynArg.fnTypeError
    ∧ create_token_response engT (DynArg.fn g) f req resp =
        create_token_response engT (DynArg.static (g req)) f req resp
    ∧ verify_request engV (DynArg.fn gs) f req resp =
        verify_request engV (DynArg.static (gs req)) f req resp :=
  ⟨rfl, rfl, rfl, rfl, rfl⟩

/-- C10: a body that is valid JSON but not a JSON object (`"123"`,
`"[1, 2]"`), written without `force_json` to a request not accepting
JSON, makes `set_response` raise an `AttributeError` (the parsed value
has no `.items()`): such bodies are neither opaque strings nor
serializable. -/
theorem set_response_nonobject_attribute_error :
    jsonLoads "123" = some (Json.num 123)
    ∧ set_response req0 resp0 200 (PyObj.pyDict []) (PyObj.pyStr "123") false =
      Except.error (PyError.attributeError
        "\x27int\x27 object has no attribute \x27items\x27")
    ∧ jsonLoads "[1, 2]" = some (Json.arr [Json.num 1, Json.num 2])
    ∧ set_response req0 resp0 200 (PyObj.pyDict []) (PyObj.pyStr "[1, 2]") false =
      Except.error (PyError.attributeError
        "\x27list\x27 object has no attribute \x27items\x27") :=
  ⟨rfl, rfl, rfl, rfl⟩
